import Mathlib

/-!
Shallow embedding of the ARSA Edge-TTS API service (`src/main.py`).

The pure helpers (`estimate_duration`, `get_voice_name`, the filename
extension choice, the text preview) are translated directly.  Python
string primitives (`lower`, `strip`, `split`, `endswith`, slicing, `len`)
are modelled by structurally recursive functions over the character list
of a `String`, with Python's semantics (e.g. `split()` with no separator
splits on whitespace runs and drops empty fragments, `len` counts
characters).

The side-effecting request handlers (`generate_speech`,
`generate_batch_speech`, `cleanup_old_files`) are modelled as pure
functions over an explicit environment: the external `edge_tts` engine
call is a parameter (`EngineResult`) describing whether
`communicate.save` raised and, if not, what file it left on disk; the
generated uuid/timestamp strings are parameters; the directory listing
seen by the cleanup sweep is an explicit list of `FileInfo` records.
Each handler returns, besides its HTTP-level outcome, the observable
effects the claims speak about: whether the engine was invoked and
which file was written.
-/

/-- Python `s.lower()` (ASCII case folding, which covers every string the
service compares). -/
def pyLower (s : String) : String := String.mk (s.data.map Char.toLower)

/-- Python `s.strip()`: drop leading and trailing whitespace. -/
def pyStrip (s : String) : String :=
  String.mk (((s.data.dropWhile Char.isWhitespace).reverse.dropWhile
      Char.isWhitespace).reverse)

/-- Python `len(s)`: number of characters. -/
def pyLen (s : String) : Nat := s.data.length

/-- Python `s.endswith(suffix)`. -/
def pyEndsWith (s suffix : String) : Bool := suffix.data.isSuffixOf s.data

/-- Python `s[:n]`. -/
def pyTake (s : String) (n : Nat) : String := String.mk (s.data.take n)

/-- Helper for `wordCount`: count maximal non-whitespace runs; the flag
records whether the previous character was inside a word. -/
def wcAux : Bool → List Char → Nat
  | _, [] => 0
  | inWord, c :: cs =>
    if c.isWhitespace then wcAux false cs
    else (if inWord then 0 else 1) + wcAux true cs

/-- Word count of a text, following Python `len(text.split())`
(`main.py` line 113): the number of maximal whitespace-separated runs. -/
def wordCount (text : String) : Nat := wcAux false text.data

/-- Round-half-to-even on rationals, the rounding mode of Python
`round`. -/
def roundHalfEven (x : ℚ) : ℤ :=
  if x - (Int.floor x : ℚ) < 1/2 then Int.floor x
  else if 1/2 < x - (Int.floor x : ℚ) then Int.floor x + 1
  else if Int.floor x % 2 = 0 then Int.floor x else Int.floor x + 1

/-- Python `round(x, 2)`: round to two decimal places, half to even. -/
def round2 (x : ℚ) : ℚ := (roundHalfEven (100 * x) : ℚ) / 100

/-- Words-per-minute constant chosen in `estimate_duration`
(`main.py` line 115): 120 when `language.lower() == "indonesian"`,
otherwise 150. -/
def words_per_minute (language : String) : ℚ :=
  if pyLower language = "indonesian" then 120 else 150

/-- `estimate_duration` (`main.py` lines 111-117): word count divided by
the words-per-minute constant, converted to seconds, rounded to two
decimal places. -/
def estimate_duration (text : String) (language : String) : ℚ :=
  round2 ((wordCount text : ℚ) / words_per_minute language * 60)

/-- Registry entry for one voice (`main.py` lines 44-71). -/
structure VoiceData where
  name : String
  gender : String
  description : String
deriving DecidableEq

/-- `INDONESIAN_VOICES` (`main.py` lines 44-55), as an insertion-ordered
association list. -/
def INDONESIAN_VOICES : List (String × VoiceData) :=
  [("female", ⟨"id-ID-GadisNeural", "Female",
      "Natural Indonesian female voice - Professional"⟩),
   ("male", ⟨"id-ID-ArdiNeural", "Male",
      "Natural Indonesian male voice - Authoritative"⟩)]

/-- `ENGLISH_VOICES` (`main.py` lines 58-69). -/
def ENGLISH_VOICES : List (String × VoiceData) :=
  [("female_us", ⟨"en-US-AriaNeural", "Female",
      "Natural US English female voice"⟩),
   ("male_us", ⟨"en-US-GuyNeural", "Male",
      "Natural US English male voice"⟩)]

/-- `get_voice_name` (`main.py` lines 119-124): dictionary `get` with the
language's first-listed female voice as the default; every language whose
lowercase form is not `"english"` uses the Indonesian registry.  The
inner `.getD ⟨"", "", ""⟩` is dead: the default keys `"female_us"` /
`"female"` are present in the static registries. -/
def get_voice_name (voice : String) (language : String) : String :=
  if pyLower language = "english" then
    ((ENGLISH_VOICES.lookup voice).getD
      ((ENGLISH_VOICES.lookup "female_us").getD ⟨"", "", ""⟩)).name
  else
    ((INDONESIAN_VOICES.lookup voice).getD
      ((INDONESIAN_VOICES.lookup "female").getD ⟨"", "", ""⟩)).name

/-- File extension choice shared by `generate_speech` (`main.py` line
217) and `generate_batch_speech` (line 306):
`"wav" if request.output_format.lower() == "wav" else "mp3"`. -/
def file_extension (output_format : String) : String :=
  if pyLower output_format = "wav" then "wav" else "mp3"

/-- Python `req.text[:50] + "..." if len(req.text) > 50 else req.text`
(`main.py` lines 330 and 337). -/
def text_preview (t : String) : String :=
  if pyLen t > 50 then pyTake t 50 ++ "..." else t

/-- A `TTSRequest` (`main.py` lines 74-81), with the model's default
field values. -/
structure TTSRequest where
  text : String
  voice : String := "female"
  rate : String := "+0%"
  pitch : String := "+0Hz"
  volume : String := "+0%"
  language : String := "indonesian"
  output_format : String := "wav"
deriving DecidableEq

/-- Behaviour of the external engine call `await communicate.save(...)`
for one request: either it raises (with a message), or it returns,
leaving on disk either no file (`saved none`) or a file of the given
byte size (`saved (some size)`, possibly `0`). -/
inductive EngineResult where
  | raises (msg : String)
  | saved (fileSize : Option Nat)
deriving DecidableEq

/-- `TTSResponse` (`main.py` lines 94-101) as populated on the success
path of `generate_speech`. -/
structure TTSResponse where
  success : Bool
  message : String
  audio_id : String
  audio_url : String
  duration_estimate : ℚ
  voice_used : String
  file_size : Nat
deriving DecidableEq

/-- HTTP-level result of the single `/tts` handler: an `HTTPException`
with status and detail, or a 200 response body. -/
inductive Outcome where
  | httpError (status : Nat) (detail : String)
  | success (resp : TTSResponse)
deriving DecidableEq

/-- The HTTP error status of an outcome, if it is an error. -/
def Outcome.errorStatus : Outcome → Option Nat
  | .httpError s _ => some s
  | .success _ => none

/-- The `file_size` field of a success outcome, if any. -/
def Outcome.fileSizeOf : Outcome → Option Nat
  | .httpError _ _ => none
  | .success r => some r.file_size

/-- One run of the single `/tts` handler: its HTTP outcome plus the
observable effects the claims speak about — whether the external engine
was invoked (equivalently, whether `communicate.save` was reached) and
the name of the file persisted in the output directory, if any. -/
structure SingleRun where
  outcome : Outcome
  engineInvoked : Bool
  writtenFile : Option String
deriving DecidableEq

/-- `generate_speech` (`main.py` lines 195-262) with the environment made
explicit: `maxLen` is `MAX_TEXT_LENGTH`, `eng` the engine behaviour,
`audio_id` the generated uuid, `timestamp` the formatted current time.
Validation happens first (empty/whitespace text, then over-long text),
each raising HTTP 400 before the engine is reached; after a non-raising
engine call the handler raises HTTP 500 when the output file does not
exist, and otherwise returns a success response with the measured file
size.  An engine exception is caught and re-raised as HTTP 500. -/
def generate_speech (maxLen : Nat) (eng : EngineResult) (req : TTSRequest)
    (audio_id timestamp : String) : SingleRun :=
  if pyStrip req.text = "" then
    { outcome := .httpError 400 "Text cannot be empty",
      engineInvoked := false, writtenFile := none }
  else if pyLen req.text > maxLen then
    { outcome := .httpError 400
        ("Text too long (max " ++ toString maxLen ++ " characters)"),
      engineInvoked := false, writtenFile := none }
  else
    let voice_name := get_voice_name req.voice req.language
    let filename := "arsa_tts_" ++ timestamp ++ "_" ++ audio_id ++ "."
        ++ file_extension req.output_format
    match eng with
    | .raises msg =>
      { outcome := .httpError 500 ("Failed to generate speech: " ++ msg),
        engineInvoked := true, writtenFile := none }
    | .saved none =>
      { outcome := .httpError 500 "Failed to generate audio file",
        engineInvoked := true, writtenFile := none }
    | .saved (some size) =>
      { outcome := .success
          { success := true,
            message := "Audio generated successfully",
            audio_id := audio_id,
            audio_url := "/audio/" ++ audio_id,
            duration_estimate := estimate_duration req.text req.language,
            voice_used := voice_name,
            file_size := size },
        engineInvoked := true, writtenFile := some filename }

/-- One entry of the batch `results` list (`main.py` lines 323-338):
either the success dictionary or the failure dictionary. -/
inductive BatchItemResult where
  | ok (audio_id : String) (audio_url : String) (duration_estimate : ℚ)
      (voice_used : String) (file_size : Nat) (text_preview₀ : String)
  | failure (error : String) (text_preview₀ : String)
deriving DecidableEq

/-- Whether a batch entry is a success entry (`r.get("success")`). -/
def BatchItemResult.isSuccess : BatchItemResult → Bool
  | .ok .. => true
  | .failure .. => false

/-- The `file_size` field of a success entry, if any. -/
def BatchItemResult.fileSizeOf : BatchItemResult → Option Nat
  | .ok _ _ _ _ size _ => some size
  | .failure .. => none

/-- One batch item together with its per-item environment: the generated
uuid, the formatted timestamp, and the engine behaviour for this item. -/
structure BatchItem where
  req : TTSRequest
  engine : EngineResult
  audio_id : String
  timestamp : String
deriving DecidableEq

/-- One processed batch item: its `results` entry plus the observable
effects (engine invocation, file written). -/
structure BatchItemRun where
  result : BatchItemResult
  engineInvoked : Bool
  writtenFile : Option String
deriving DecidableEq

/-- The per-item body of the batch loop (`main.py` lines 300-338), for
item index `i`.  There is no text validation: the handler resolves the
voice, builds the filename, and invokes the engine directly.  Any
exception in the block is caught and recorded as a failure entry with
the error text and a preview of the item's text; otherwise a success
entry is recorded, whose `file_size` is the measured size when the
output file exists and `0` when it does not. -/
def processBatchItem (i : Nat) (it : BatchItem) : BatchItemRun :=
  let voice_name := get_voice_name it.req.voice it.req.language
  let filename := "arsa_batch_" ++ it.timestamp ++ "_" ++ toString i
      ++ "_" ++ it.audio_id ++ "." ++ file_extension it.req.output_format
  match it.engine with
  | .raises msg =>
    { result := .failure msg (text_preview it.req.text),
      engineInvoked := true, writtenFile := none }
  | .saved sz =>
    { result := .ok it.audio_id ("/audio/" ++ it.audio_id)
        (estimate_duration it.req.text it.req.language)
        voice_name (sz.getD 0) (text_preview it.req.text),
      engineInvoked := true,
      writtenFile := match sz with
        | some _ => some filename
        | none => none }

/-- The 200 body of the batch handler (`main.py` lines 342-348). -/
structure BatchResponse where
  batch_success : Bool
  total_requests : Nat
  successful : Nat
  failed : Nat
  results : List BatchItemResult
deriving DecidableEq

/-- HTTP-level result of the `/tts/batch` handler. -/
inductive BatchOutcome where
  | httpError (status : Nat) (detail : String)
  | ok (resp : BatchResponse)
deriving DecidableEq

/-- The 200 body the batch handler builds once the size cap has passed
(`main.py` lines 297-348): one entry per request in input order, and the
success/failure counts computed by filtering the entries. -/
def batchResponseOf (items : List BatchItem) : BatchResponse :=
  let results := (items.enum.map (fun p => processBatchItem p.1 p.2)).map
      (fun run => run.result)
  { batch_success := true,
    total_requests := items.length,
    successful := (results.filter (fun r => r.isSuccess)).length,
    failed := (results.filter (fun r => !r.isSuccess)).length,
    results := results }

/-- `generate_batch_speech` (`main.py` lines 290-354): reject batches of
more than 10 requests with HTTP 400, otherwise process every item. -/
def generate_batch_speech (items : List BatchItem) : BatchOutcome :=
  if items.length > 10 then
    .httpError 400 "Maximum 10 requests per batch"
  else
    .ok (batchResponseOf items)

/-- One directory entry as seen by the cleanup sweep: its name, whether
it is a regular file, its creation time (`os.path.getctime`), and
whether `os.remove` would raise for it.  Timestamps are modelled at
integer granularity; the strict `>` comparison of the sweep is
unaffected. -/
structure FileInfo where
  name : String
  isFile : Bool
  ctime : ℤ
  deleteFails : Bool
deriving DecidableEq

/-- The deletion condition of the sweep (`main.py` lines 132-134): a
regular file with a `.wav`/`.mp3` name whose age strictly exceeds the
cleanup interval. -/
def shouldDelete (now interval : ℤ) (f : FileInfo) : Bool :=
  f.isFile && (pyEndsWith f.name ".wav" || pyEndsWith f.name ".mp3")
    && decide (now - f.ctime > interval)

/-- `cleanup_old_files` (`main.py` lines 126-138), returning the names
deleted, in scan order.  The whole loop sits inside a single
`try/except`, so an `os.remove` failure is logged and ends the sweep:
no later entry is examined. -/
def cleanup_old_files (now interval : ℤ) : List FileInfo → List String
  | [] => []
  | f :: rest =>
    if shouldDelete now interval f then
      if f.deleteFails then []
      else f.name :: cleanup_old_files now interval rest
    else cleanup_old_files now interval rest

/-! ## Helper lemmas -/

lemma lookup_eq_none_eng (voice : String) (h1 : voice ≠ "female_us")
    (h2 : voice ≠ "male_us") : ENGLISH_VOICES.lookup voice = none := by
  have e1 : (voice == "female_us") = false := beq_eq_false_iff_ne.mpr h1
  have e2 : (voice == "male_us") = false := beq_eq_false_iff_ne.mpr h2
  simp [ENGLISH_VOICES, List.lookup, e1, e2]

lemma lookup_eq_none_ind (voice : String) (h1 : voice ≠ "female")
    (h2 : voice ≠ "male") : INDONESIAN_VOICES.lookup voice = none := by
  have e1 : (voice == "female") = false := beq_eq_false_iff_ne.mpr h1
  have e2 : (voice == "male") = false := beq_eq_false_iff_ne.mpr h2
  simp [INDONESIAN_VOICES, List.lookup, e1, e2]

lemma length_filter_add_length_filter_not (p : BatchItemResult → Bool)
    (l : List BatchItemResult) :
    (l.filter p).length + (l.filter (fun r => !p r)).length = l.length := by
  induction l with
  | nil => simp
  | cons a l ih =>
    by_cases h : p a <;> simp [List.filter, h, ← ih] <;> omega

lemma roundHalfEven_mono {x y : ℚ} (h : x ≤ y) :
    roundHalfEven x ≤ roundHalfEven y := by
  have hf : Int.floor x ≤ Int.floor y := Int.floor_mono h
  rcases lt_or_eq_of_le hf with hlt | heq
  · have h1 : roundHalfEven x ≤ Int.floor x + 1 := by
      unfold roundHalfEven; split_ifs <;> omega
    have h2 : Int.floor y ≤ roundHalfEven y := by
      unfold roundHalfEven; split_ifs <;> omega
    omega
  · unfold roundHalfEven
    rw [← heq]
    split_ifs <;> first | omega | linarith

lemma round2_mono {x y : ℚ} (h : x ≤ y) : round2 x ≤ round2 y := by
  unfold round2
  have hle : roundHalfEven (100 * x) ≤ roundHalfEven (100 * y) :=
    roundHalfEven_mono (by linarith)
  have hc : ((roundHalfEven (100 * x) : ℤ) : ℚ)
      ≤ ((roundHalfEven (100 * y) : ℤ) : ℚ) := Int.cast_le.mpr hle
  linarith

lemma words_per_minute_pos (language : String) :
    0 < words_per_minute language := by
  unfold words_per_minute; split <;> norm_num

lemma roundHalfEven_zero : roundHalfEven 0 = 0 := by
  unfold roundHalfEven
  norm_num

lemma roundHalfEven_intCast (n : ℤ) : roundHalfEven (n : ℚ) = n := by
  unfold roundHalfEven
  simp [Int.floor_intCast]

lemma cleanup_eq_filter (now interval : ℤ) (fs : List FileInfo)
    (h : ∀ g ∈ fs, g.deleteFails = false) :
    cleanup_old_files now interval fs
      = (fs.filter (shouldDelete now interval)).map FileInfo.name := by
  induction fs with
  | nil => rfl
  | cons f rest ih =>
    have hf : f.deleteFails = false := h f (List.mem_cons_self _ _)
    have hr : ∀ g ∈ rest, g.deleteFails = false :=
      fun g hg => h g (List.mem_cons_of_mem _ hg)
    by_cases hs : shouldDelete now interval f = true
    · simp [cleanup_old_files, hs, hf, List.filter_cons, ih hr]
    · simp [cleanup_old_files, hs, List.filter_cons, ih hr]

/-! ## Claims -/

/-- Claim C5: a single `/tts` request whose text is empty/whitespace-only
or longer than the configured maximum fails with HTTP 400 before the
external synthesis capability is invoked and before any file is
written. -/
theorem tts_validation_fails_fast (maxLen : Nat) (eng : EngineResult)
    (req : TTSRequest) (audio_id timestamp : String)
    (h : pyStrip req.text = "" ∨ pyLen req.text > maxLen) :
    (generate_speech maxLen eng req audio_id timestamp).outcome.errorStatus = some 400
      ∧ (generate_speech maxLen eng req audio_id timestamp).engineInvoked = false
      ∧ (generate_speech maxLen eng req audio_id timestamp).writtenFile = none := by
  rcases h with h | h
  · simp [generate_speech, h, Outcome.errorStatus]
  · unfold generate_speech
    by_cases he : pyStrip req.text = ""
    · simp [he, Outcome.errorStatus]
    · simp [he, h, Outcome.errorStatus]

theorem tts_validation_fails_fast_witness :
    (pyStrip "   " = "" ∨ pyLen "   " > 5000)
      ∧ ((generate_speech 5000 (.saved (some 9)) { text := "   " } "id0" "ts0").outcome.errorStatus
          = some 400
        ∧ (generate_speech 5000 (.saved (some 9)) { text := "   " } "id0" "ts0").engineInvoked
          = false
        ∧ (generate_speech 5000 (.saved (some 9)) { text := "   " } "id0" "ts0").writtenFile
          = none) :=
  ⟨Or.inl (by decide),
   tts_validation_fails_fast 5000 (.saved (some 9)) { text := "   " } "id0" "ts0"
     (Or.inl (by decide))⟩

/-- Claim C9: voice resolution is total — its value is always one of the
four registered engine voice names; an unknown voice id for a supported
language falls back to that language's first-listed female voice; and a
language outside the closed set resolves exactly as the primary language
(Indonesian) would. -/
theorem voice_resolution_total (voice language : String) :
    get_voice_name voice language ∈
        ["id-ID-GadisNeural", "id-ID-ArdiNeural", "en-US-AriaNeural", "en-US-GuyNeural"]
      ∧ (pyLower language = "english" → ENGLISH_VOICES.lookup voice = none →
          get_voice_name voice language = "en-US-AriaNeural")
      ∧ (pyLower language ≠ "english" → INDONESIAN_VOICES.lookup voice = none →
          get_voice_name voice language = "id-ID-GadisNeural")
      ∧ (pyLower language ≠ "english" → pyLower language ≠ "indonesian" →
          get_voice_name voice language = get_voice_name voice "indonesian") := by
  refine ⟨?_, ?_, ?_, ?_⟩
  · unfold get_voice_name
    split
    · by_cases h1 : voice = "female_us"
      · subst h1; decide
      · by_cases h2 : voice = "male_us"
        · subst h2; decide
        · rw [lookup_eq_none_eng voice h1 h2]; decide
    · by_cases h1 : voice = "female"
      · subst h1; decide
      · by_cases h2 : voice = "male"
        · subst h2; decide
        · rw [lookup_eq_none_ind voice h1 h2]; decide
  · intro hl hn
    unfold get_voice_name
    rw [if_pos hl, hn]
    decide
  · intro hl hn
    unfold get_voice_name
    rw [if_neg hl, hn]
    decide
  · intro hl hn
    have h2 : pyLower "indonesian" ≠ "english" := by decide
    simp [get_voice_name, hl, h2]

theorem voice_resolution_total_witness :
    (pyLower "french" ≠ "english"
      ∧ INDONESIAN_VOICES.lookup "narrator" = none
      ∧ pyLower "french" ≠ "indonesian")
    ∧ (get_voice_name "narrator" "french" ∈
        ["id-ID-GadisNeural", "id-ID-ArdiNeural", "en-US-AriaNeural", "en-US-GuyNeural"]
      ∧ (pyLower "french" = "english" → ENGLISH_VOICES.lookup "narrator" = none →
          get_voice_name "narrator" "french" = "en-US-AriaNeural")
      ∧ (pyLower "french" ≠ "english" → INDONESIAN_VOICES.lookup "narrator" = none →
          get_voice_name "narrator" "french" = "id-ID-GadisNeural")
      ∧ (pyLower "french" ≠ "english" → pyLower "french" ≠ "indonesian" →
          get_voice_name "narrator" "french" = get_voice_name "narrator" "indonesian")) :=
  ⟨⟨by decide, by decide, by decide⟩, voice_resolution_total "narrator" "french"⟩

/-- Claim C10: any output format whose lowercase form is not `"wav"`
(e.g. `"ogg"`) is silently treated as `"mp3"`: the file extension is
`"mp3"`, the single request succeeds (is never rejected for the format),
the persisted filename ends in `.mp3`, and the same holds for a batch
item. -/
theorem unrecognized_format_treated_as_mp3 (fmt : String) (maxLen n i : Nat)
    (req : TTSRequest) (audio_id timestamp : String) (it : BatchItem)
    (h : pyLower fmt ≠ "wav")
    (hfmt : req.output_format = fmt)
    (ht : pyStrip req.text ≠ "") (hlen : pyLen req.text ≤ maxLen)
    (hbf : it.req.output_format = fmt) (hbe : it.engine = .saved (some n)) :
    file_extension fmt = "mp3"
      ∧ (generate_speech maxLen (.saved (some n)) req audio_id timestamp).outcome.errorStatus
        = none
      ∧ (generate_speech maxLen (.saved (some n)) req audio_id timestamp).writtenFile
        = some ("arsa_tts_" ++ timestamp ++ "_" ++ audio_id ++ "." ++ "mp3")
      ∧ (processBatchItem i it).result.isSuccess = true
      ∧ (processBatchItem i it).writtenFile
        = some ("arsa_batch_" ++ it.timestamp ++ "_" ++ toString i ++ "_"
            ++ it.audio_id ++ "." ++ "mp3") := by
  have hext : file_extension fmt = "mp3" := by simp [file_extension, h]
  refine ⟨hext, ?_, ?_, ?_, ?_⟩
  · simp [generate_speech, ht, Nat.not_lt.mpr hlen, Outcome.errorStatus]
  · simp [generate_speech, ht, Nat.not_lt.mpr hlen, hfmt, hext]
  · simp [processBatchItem, hbe, BatchItemResult.isSuccess]
  · simp [processBatchItem, hbe, hbf, hext]

theorem unrecognized_format_treated_as_mp3_witness :
    (pyLower "ogg" ≠ "wav"
      ∧ (({ text := "halo", output_format := "ogg" } : TTSRequest).output_format = "ogg")
      ∧ pyStrip ({ text := "halo", output_format := "ogg" } : TTSRequest).text ≠ ""
      ∧ pyLen ({ text := "halo", output_format := "ogg" } : TTSRequest).text ≤ 5000)
    ∧ (file_extension "ogg" = "mp3"
      ∧ (generate_speech 5000 (.saved (some 3)) { text := "halo", output_format := "ogg" }
          "id0" "ts0").outcome.errorStatus = none
      ∧ (generate_speech 5000 (.saved (some 3)) { text := "halo", output_format := "ogg" }
          "id0" "ts0").writtenFile
        = some ("arsa_tts_" ++ "ts0" ++ "_" ++ "id0" ++ "." ++ "mp3")
      ∧ (processBatchItem 0 ⟨{ text := "halo", output_format := "ogg" },
          .saved (some 3), "id1", "ts1"⟩).result.isSuccess = true
      ∧ (processBatchItem 0 ⟨{ text := "halo", output_format := "ogg" },
          .saved (some 3), "id1", "ts1"⟩).writtenFile
        = some ("arsa_batch_" ++ "ts1" ++ "_" ++ toString 0 ++ "_" ++ "id1" ++ "." ++ "mp3")) :=
  ⟨⟨by decide, rfl, by decide, by decide⟩,
   unrecognized_format_treated_as_mp3 "ogg" 5000 3 0
     { text := "halo", output_format := "ogg" } "id0" "ts0"
     ⟨{ text := "halo", output_format := "ogg" }, .saved (some 3), "id1", "ts1"⟩
     (by decide) rfl (by decide) (by decide) rfl rfl⟩

/-- Claim C6: an accepted batch (≤ 10 requests) yields a 200 body whose
counts satisfy `successful + failed = total_requests = number of items`,
whose results sequence has exactly one entry per input item in input
order, and whose entry at each index is determined by that item alone —
so a failure at one index never affects the entries of later indices. -/
theorem batch_aggregate_invariants (items : List BatchItem)
    (h : items.length ≤ 10) :
    generate_batch_speech items = .ok (batchResponseOf items)
      ∧ (batchResponseOf items).successful + (batchResponseOf items).failed
          = (batchResponseOf items).total_requests
      ∧ (batchResponseOf items).total_requests = items.length
      ∧ (batchResponseOf items).results.length = items.length
      ∧ (∀ j : Fin items.length,
          (batchResponseOf items).results.get ⟨j, by simp [batchResponseOf]⟩
            = (processBatchItem j (items.get j)).result) := by
  refine ⟨?_, ?_, rfl, ?_, ?_⟩
  · simp [generate_batch_speech, Nat.not_lt.mpr h]
  · simp only [batchResponseOf]
    rw [length_filter_add_length_filter_not]
    simp
  · simp [batchResponseOf]
  · intro j
    simp [batchResponseOf, List.get_eq_getElem, List.getElem_map, List.getElem_enum]

theorem batch_aggregate_invariants_witness :
    ([(⟨{ text := "halo" }, .saved (some 3), "id0", "ts0"⟩ : BatchItem),
      ⟨{ text := "" }, .raises "boom", "id1", "ts1"⟩].length ≤ 10)
    ∧ (generate_batch_speech
          [⟨{ text := "halo" }, .saved (some 3), "id0", "ts0"⟩,
           ⟨{ text := "" }, .raises "boom", "id1", "ts1"⟩]
        = .ok (batchResponseOf
          [⟨{ text := "halo" }, .saved (some 3), "id0", "ts0"⟩,
           ⟨{ text := "" }, .raises "boom", "id1", "ts1"⟩])
      ∧ (batchResponseOf
          [⟨{ text := "halo" }, .saved (some 3), "id0", "ts0"⟩,
           ⟨{ text := "" }, .raises "boom", "id1", "ts1"⟩]).successful
        + (batchResponseOf
          [⟨{ text := "halo" }, .saved (some 3), "id0", "ts0"⟩,
           ⟨{ text := "" }, .raises "boom", "id1", "ts1"⟩]).failed
        = (batchResponseOf
          [⟨{ text := "halo" }, .saved (some 3), "id0", "ts0"⟩,
           ⟨{ text := "" }, .raises "boom", "id1", "ts1"⟩]).total_requests) :=
  ⟨by decide,
   (batch_aggregate_invariants
      [⟨{ text := "halo" }, .saved (some 3), "id0", "ts0"⟩,
       ⟨{ text := "" }, .raises "boom", "id1", "ts1"⟩] (by decide)).1,
   (batch_aggregate_invariants
      [⟨{ text := "halo" }, .saved (some 3), "id0", "ts0"⟩,
       ⟨{ text := "" }, .raises "boom", "id1", "ts1"⟩] (by decide)).2.1⟩

/-- Claim C7: for a fixed language the duration estimate is monotone
non-decreasing in the whitespace-split word count of the text, and the
empty text yields an estimate of exactly 0 for every language. -/
theorem duration_monotone_and_empty_zero (language t1 t2 : String)
    (h : wordCount t1 ≤ wordCount t2) :
    estimate_duration t1 language ≤ estimate_duration t2 language
      ∧ estimate_duration "" language = 0 := by
  constructor
  · unfold estimate_duration
    apply round2_mono
    have hc : (wordCount t1 : ℚ) ≤ (wordCount t2 : ℚ) := by exact_mod_cast h
    have hpos := words_per_minute_pos language
    have hdiv : (wordCount t1 : ℚ) / words_per_minute language
        ≤ (wordCount t2 : ℚ) / words_per_minute language :=
      (div_le_div_iff_of_pos_right hpos).mpr hc
    linarith
  · have h0 : wordCount "" = 0 := rfl
    simp [estimate_duration, h0, round2, roundHalfEven_zero]

theorem duration_monotone_and_empty_zero_witness :
    (wordCount "halo" ≤ wordCount "halo dunia")
      ∧ (estimate_duration "halo" "indonesian"
          ≤ estimate_duration "halo dunia" "indonesian"
        ∧ estimate_duration "" "indonesian" = 0) :=
  ⟨by decide,
   duration_monotone_and_empty_zero "indonesian" "halo" "halo dunia" (by decide)⟩

/-- Claim C4 fails on the code: for an unsupported language the
estimator uses the English constant (150 wpm), not the Indonesian one
(120 wpm), so at the one-word text `"halo"` the estimate under
`"french"` (0.4 s) differs from the estimate under `"indonesian"`
(0.5 s). -/
theorem estimator_unsupported_counterexample :
    estimate_duration "halo" "french" ≠ estimate_duration "halo" "indonesian" := by
  have hw : wordCount "halo" = 1 := by decide
  have hwpmf : words_per_minute "french" = 150 := by
    unfold words_per_minute; rw [if_neg (by decide)]
  have hwpmi : words_per_minute "indonesian" = 120 := by
    unfold words_per_minute; rw [if_pos (by decide)]
  have hf : estimate_duration "halo" "french" = 2/5 := by
    unfold estimate_duration round2
    rw [hw, hwpmf]
    rw [show (100 : ℚ) * (((1 : ℕ) : ℚ) / 150 * 60) = ((40 : ℤ) : ℚ) by norm_num,
      roundHalfEven_intCast]
    norm_num
  have hi : estimate_duration "halo" "indonesian" = 1/2 := by
    unfold estimate_duration round2
    rw [hw, hwpmi]
    rw [show (100 : ℚ) * (((1 : ℕ) : ℚ) / 120 * 60) = ((50 : ℤ) : ℚ) by norm_num,
      roundHalfEven_intCast]
    norm_num
  rw [hf, hi]
  norm_num

/-- Claim C4 amended: for every text, a language identifier outside the
supported set behaves exactly like `"english"` — the estimator uses the
English words-per-minute constant (150), not the Indonesian one. -/
theorem estimator_unsupported_uses_english (text language : String)
    (h : pyLower language ≠ "indonesian") :
    estimate_duration text language = estimate_duration text "english" := by
  unfold estimate_duration words_per_minute
  rw [if_neg h, if_neg (by decide : ¬pyLower "english" = "indonesian")]

theorem estimator_unsupported_uses_english_witness :
    pyLower "french" ≠ "indonesian"
      ∧ estimate_duration "halo" "french" = estimate_duration "halo" "english" :=
  ⟨by decide, estimator_unsupported_uses_english "halo" "french" (by decide)⟩

/-- Claim C8: under a sweep in which no individual deletion fails, a
recognized audio file with distinct name is deleted exactly when its age
strictly exceeds the cleanup interval. -/
theorem eviction_age_threshold (now interval : ℤ) (fs : List FileInfo)
    (hnf : ∀ g ∈ fs, g.deleteFails = false)
    (hnd : (fs.map FileInfo.name).Nodup)
    (f : FileInfo) (hf : f ∈ fs) (hfile : f.isFile = true)
    (hext : (pyEndsWith f.name ".wav" || pyEndsWith f.name ".mp3") = true) :
    f.name ∈ cleanup_old_files now interval fs ↔ now - f.ctime > interval := by
  rw [cleanup_eq_filter now interval fs hnf]
  constructor
  · intro hmem
    rcases List.mem_map.mp hmem with ⟨g, hgmem, hgname⟩
    rcases List.mem_filter.mp hgmem with ⟨hgfs, hgdel⟩
    have hgf : g = f := List.inj_on_of_nodup_map hnd hgfs hf hgname
    subst hgf
    simpa [shouldDelete, hfile, hext] using hgdel
  · intro hage
    exact List.mem_map.mpr
      ⟨f, List.mem_filter.mpr ⟨hf, by simp [shouldDelete, hfile, hext, hage]⟩, rfl⟩

theorem eviction_age_threshold_witness :
    ((∀ g ∈ [(⟨"a.mp3", true, 0, false⟩ : FileInfo), ⟨"b.mp3", true, 95, false⟩],
        g.deleteFails = false)
      ∧ (([(⟨"a.mp3", true, 0, false⟩ : FileInfo), ⟨"b.mp3", true, 95, false⟩].map
          FileInfo.name).Nodup)
      ∧ (⟨"a.mp3", true, 0, false⟩ : FileInfo)
          ∈ [(⟨"a.mp3", true, 0, false⟩ : FileInfo), ⟨"b.mp3", true, 95, false⟩]
      ∧ (⟨"a.mp3", true, 0, false⟩ : FileInfo).isFile = true
      ∧ (pyEndsWith (⟨"a.mp3", true, 0, false⟩ : FileInfo).name ".wav"
          || pyEndsWith (⟨"a.mp3", true, 0, false⟩ : FileInfo).name ".mp3") = true)
    ∧ (((⟨"a.mp3", true, 0, false⟩ : FileInfo).name
        ∈ cleanup_old_files 100 10
            [(⟨"a.mp3", true, 0, false⟩ : FileInfo), ⟨"b.mp3", true, 95, false⟩])
      ↔ (100 : ℤ) - (⟨"a.mp3", true, 0, false⟩ : FileInfo).ctime > 10) :=
  ⟨⟨by decide, by decide, by decide, by decide, by decide⟩,
   eviction_age_threshold 100 10
     [⟨"a.mp3", true, 0, false⟩, ⟨"b.mp3", true, 95, false⟩]
     (by decide) (by decide) ⟨"a.mp3", true, 0, false⟩ (by decide) (by decide) (by decide)⟩

/-- Claim C3 fails on the code: with two files both older than the
threshold, a deletion failure on the first aborts the sweep, so the
second — although it satisfies the deletion condition — is not deleted. -/
theorem cleanup_failure_aborts_counterexample :
    shouldDelete 100 10 ⟨"b.mp3", true, 0, false⟩ = true
      ∧ cleanup_old_files 100 10
          [⟨"a.mp3", true, 0, true⟩, ⟨"b.mp3", true, 0, false⟩] = [] := by
  decide

/-- Claim C3 amended: a failure deleting one individual file is caught
(and logged) but aborts the remaining scan — the sweep behaves as if the
list ended at the failing file; only when no deletion fails is every
file older than the threshold examined and deleted. -/
theorem cleanup_failure_aborts_sweep (now interval : ℤ)
    (fs1 fs2 : List FileInfo) (f : FileInfo)
    (hsd : shouldDelete now interval f = true) (hdf : f.deleteFails = true) :
    cleanup_old_files now interval (fs1 ++ f :: fs2)
        = cleanup_old_files now interval (fs1 ++ [f])
      ∧ (∀ gs : List FileInfo, (∀ g ∈ gs, g.deleteFails = false) →
          cleanup_old_files now interval gs
            = (gs.filter (shouldDelete now interval)).map FileInfo.name) := by
  constructor
  · induction fs1 with
    | nil => simp [cleanup_old_files, hsd, hdf]
    | cons g rest ih =>
      by_cases hs : shouldDelete now interval g = true
      · by_cases hd : g.deleteFails = true
        · simp [cleanup_old_files, hs, hd]
        · simp only [List.cons_append, cleanup_old_files, hs, hd, if_true, if_false,
            Bool.not_eq_true] at *
          simp [hd, ih]
      · simp only [List.cons_append, cleanup_old_files, hs, if_false] at *
        simp [hs, ih]
  · exact fun gs h => cleanup_eq_filter now interval gs h

theorem cleanup_failure_aborts_sweep_witness :
    (shouldDelete 100 10 ⟨"a.mp3", true, 0, true⟩ = true
      ∧ (⟨"a.mp3", true, 0, true⟩ : FileInfo).deleteFails = true)
    ∧ cleanup_old_files 100 10
          ([⟨"c.mp3", true, 99, false⟩] ++ (⟨"a.mp3", true, 0, true⟩ : FileInfo)
            :: [⟨"b.mp3", true, 0, false⟩])
        = cleanup_old_files 100 10
            ([⟨"c.mp3", true, 99, false⟩] ++ [(⟨"a.mp3", true, 0, true⟩ : FileInfo)]) :=
  ⟨⟨by decide, by decide⟩,
   (cleanup_failure_aborts_sweep 100 10 [⟨"c.mp3", true, 99, false⟩]
     [⟨"b.mp3", true, 0, false⟩] ⟨"a.mp3", true, 0, true⟩ (by decide) (by decide)).1⟩

/-- Claim C1 fails on the code: after a non-raising engine call that
left a zero-length file on disk, the single `/tts` handler returns a
success outcome whose `file_size` is 0 instead of failing. -/
theorem empty_output_success_counterexample :
    (generate_speech 5000 (.saved (some 0)) { text := "halo" } "id0" "ts0").outcome.errorStatus
        = none
      ∧ (generate_speech 5000 (.saved (some 0)) { text := "halo" } "id0" "ts0").outcome.fileSizeOf
        = some 0 := by
  constructor <;> rfl

/-- Claim C1 amended: after a non-raising engine call, the single `/tts`
handler fails with HTTP 500 ("Failed to generate audio file") only when
the output file is missing; a zero-length file is returned as a success
outcome with its measured size.  On the batch path neither a missing nor
an empty output file fails the item: the entry is a success entry whose
`file_size` is the measured size, and 0 when the file is missing. -/
theorem empty_output_handling (maxLen n i : Nat) (req : TTSRequest)
    (audio_id timestamp : String) (it : BatchItem)
    (ht : pyStrip req.text ≠ "") (hlen : pyLen req.text ≤ maxLen) :
    (generate_speech maxLen (.saved none) req audio_id timestamp).outcome
        = .httpError 500 "Failed to generate audio file"
      ∧ (generate_speech maxLen (.saved (some n)) req audio_id timestamp).outcome.errorStatus
        = none
      ∧ (generate_speech maxLen (.saved (some n)) req audio_id timestamp).outcome.fileSizeOf
        = some n
      ∧ (it.engine = .saved none →
          (processBatchItem i it).result.isSuccess = true
            ∧ (processBatchItem i it).result.fileSizeOf = some 0)
      ∧ (∀ m, it.engine = .saved (some m) →
          (processBatchItem i it).result.isSuccess = true
            ∧ (processBatchItem i it).result.fileSizeOf = some m) := by
  refine ⟨?_, ?_, ?_, ?_, ?_⟩
  · simp [generate_speech, ht, Nat.not_lt.mpr hlen]
  · simp [generate_speech, ht, Nat.not_lt.mpr hlen, Outcome.errorStatus]
  · simp [generate_speech, ht, Nat.not_lt.mpr hlen, Outcome.fileSizeOf]
  · intro hE
    simp [processBatchItem, hE, BatchItemResult.isSuccess, BatchItemResult.fileSizeOf]
  · intro m hE
    simp [processBatchItem, hE, BatchItemResult.isSuccess, BatchItemResult.fileSizeOf]

theorem empty_output_handling_witness :
    (pyStrip ({ text := "halo" } : TTSRequest).text ≠ ""
      ∧ pyLen ({ text := "halo" } : TTSRequest).text ≤ 5000)
    ∧ (generate_speech 5000 (.saved none) { text := "halo" } "id0" "ts0").outcome
        = .httpError 500 "Failed to generate audio file"
    ∧ ((processBatchItem 0 ⟨{ text := "halo" }, .saved none, "id1", "ts1"⟩).result.isSuccess
          = true
      ∧ (processBatchItem 0 ⟨{ text := "halo" }, .saved none, "id1", "ts1"⟩).result.fileSizeOf
          = some 0) :=
  ⟨⟨by decide, by decide⟩,
   (empty_output_handling 5000 0 0 { text := "halo" } "id0" "ts0"
     ⟨{ text := "halo" }, .saved none, "id1", "ts1"⟩ (by decide) (by decide)).1,
   (empty_output_handling 5000 0 0 { text := "halo" } "id0" "ts0"
     ⟨{ text := "halo" }, .saved none, "id1", "ts1"⟩ (by decide) (by decide)).2.2.2.1 rfl⟩

/-- Claim C2 fails on the code: a batch item with whitespace-only text
is not rejected — the engine is invoked for it, and when the engine
returns, the batch records a per-item success entry, not a validation
failure entry. -/
theorem batch_no_validation_counterexample :
    pyStrip ({ text := "   " } : TTSRequest).text = ""
      ∧ generate_batch_speech [⟨{ text := "   " }, .saved (some 7), "id0", "ts0"⟩]
          = .ok (batchResponseOf [⟨{ text := "   " }, .saved (some 7), "id0", "ts0"⟩])
      ∧ (batchResponseOf [⟨{ text := "   " }, .saved (some 7), "id0", "ts0"⟩]).results.map
          BatchItemResult.isSuccess = [true]
      ∧ (processBatchItem 0 ⟨{ text := "   " }, .saved (some 7), "id0", "ts0"⟩).engineInvoked
          = true := by
  refine ⟨by decide, rfl, by decide, by decide⟩

/-- Claim C2 amended: batch items undergo no text validation at all —
the external engine is invoked for every item regardless of its text
(empty, whitespace-only or over-long included); an engine exception is
recorded as a per-item failure entry carrying the error text and the
text preview, and a non-raising engine call yields a success entry. -/
theorem batch_items_not_validated (i : Nat) (it : BatchItem) :
    (processBatchItem i it).engineInvoked = true
      ∧ (∀ msg, it.engine = .raises msg →
          (processBatchItem i it).result = .failure msg (text_preview it.req.text))
      ∧ (∀ sz, it.engine = .saved sz →
          (processBatchItem i it).result.isSuccess = true) := by
  refine ⟨?_, ?_, ?_⟩
  · cases hE : it.engine <;> simp [processBatchItem, hE]
  · intro msg hE; simp [processBatchItem, hE]
  · intro sz hE; simp [processBatchItem, hE, BatchItemResult.isSuccess]

theorem batch_items_not_validated_witness :
    (processBatchItem 0 ⟨{ text := "   " }, .raises "boom", "id0", "ts0"⟩).engineInvoked = true
      ∧ (processBatchItem 0 ⟨{ text := "   " }, .raises "boom", "id0", "ts0"⟩).result
        = .failure "boom" (text_preview ({ text := "   " } : TTSRequest).text) :=
  ⟨(batch_items_not_validated 0 ⟨{ text := "   " }, .raises "boom", "id0", "ts0"⟩).1,
   (batch_items_not_validated 0 ⟨{ text := "   " }, .raises "boom", "id0", "ts0"⟩).2.1
     "boom" rfl⟩
